import Mathlib

/-!
Shallow embedding of the viper-vj backend (`src/server.js`): the username
codec for Firebase paths, the Firebase Realtime Database tree as far as the
handlers touch it, and the HTTP handlers `POST /videos`, `GET /videos/:videoId`,
`POST /signup` and `POST /login`.  Strings are modelled as Lean `String`
(lists of characters); the JS global literal `String.prototype.replace` is
modelled character-list by character-list; Firebase server timestamps are
`Nat` values supplied by the caller as `now`; the external collaborators
(bcrypt, the YouTube oEmbed lookup) are parameters of the handlers.
-/

set_option autoImplicit false

namespace ViperVJ

/-! ## JS global literal replace on character lists -/

/-- One pass of JS `s.replace(/pat/g, rep)` for a literal pattern `pat`,
scanning left to right over a character list.  The `Nat` argument counts
characters of a just-matched pattern that remain to be skipped (a match
consumes `pat.length` characters and is never re-matched inside).  All
patterns appearing in the source are non-empty; on an empty pattern this
model leaves the list unchanged. -/
def replAux (pat rep : List Char) : Nat → List Char → List Char
  | _, [] => []
  | Nat.succ k, _ :: cs => replAux pat rep k cs
  | 0, c :: cs =>
    if pat.isPrefixOf (c :: cs) && !pat.isEmpty then
      rep ++ replAux pat rep (pat.length - 1) cs
    else
      c :: replAux pat rep 0 cs

/-- JS `s.replace(/pat/g, rep)` for a literal pattern: global, left-to-right,
non-overlapping replacement. -/
def replaceAll (pat rep l : List Char) : List Char :=
  replAux pat rep 0 l

/-- Tests whether `pat` occurs as a contiguous run inside `l`. -/
def occursIn (pat : List Char) : List Char → Bool
  | [] => pat.isEmpty
  | c :: cs => pat.isPrefixOf (c :: cs) || occursIn pat cs

/-! ## Username codec (src/server.js lines 124-144) -/

/-- Function `encodeUsernameForFirebase` from `src/server.js`: replaces each of
`. @ # $ [ ]` by its literal marker, in source order; falsy (empty) input
passes through unchanged. -/
def encodeUsernameForFirebase (username : List Char) : List Char :=
  if username = [] then username
  else
    replaceAll "]".toList "_RBRACKET_".toList
      (replaceAll "[".toList "_LBRACKET_".toList
        (replaceAll "$".toList "_DOLLAR_".toList
          (replaceAll "#".toList "_HASH_".toList
            (replaceAll "@".toList "_AT_".toList
              (replaceAll ".".toList "_DOT_".toList username)))))

/-- Function `decodeUsernameFromFirebase` from `src/server.js`: replaces each literal
marker back by its special character, in source order; falsy (empty) input
passes through unchanged. -/
def decodeUsernameFromFirebase (encodedUsername : List Char) : List Char :=
  if encodedUsername = [] then encodedUsername
  else
    replaceAll "_RBRACKET_".toList "]".toList
      (replaceAll "_LBRACKET_".toList "[".toList
        (replaceAll "_DOLLAR_".toList "$".toList
          (replaceAll "_HASH_".toList "#".toList
            (replaceAll "_AT_".toList "@".toList
              (replaceAll "_DOT_".toList ".".toList encodedUsername)))))

/-- A character admitted by the signup username regex `[a-zA-Z0-9_]`. -/
def usernameChar (c : Char) : Bool :=
  c.isAlphanum || c == '_'

/-! ## Data model: the Firebase Realtime Database tree as the handlers use it -/

/-- The codec lifted to `String` (the handlers call it on request strings). -/
def encodeS (u : String) : String :=
  String.mk (encodeUsernameForFirebase u.toList)

/-- A video record as written by `POST /videos`: `youtubeUrl`, `videoId`,
`title`, `username`, `hotcues` (a JSON object of named cue seconds, modelled
as an association list with exact rational values), `createdAt`/`updatedAt`
server timestamps.  Records read back from the store may lack the optional
fields, hence `Option`. -/
structure VideoRecord where
  youtubeUrl : String
  videoId : String
  title : String
  username : Option String
  hotcues : List (String × Rat)
  createdAt : Option Nat
  updatedAt : Option Nat
deriving DecidableEq

/-- The subtree at `users/{encodedUsername}`: the account fields written by
`POST /signup` (all optional, since `POST /videos` creates this node with
none of them) and the `videos` child keyed by `videoId`. -/
structure UserEntry where
  username : Option String
  password : Option String
  createdAt : Option Nat
  updatedAt : Option Nat
  videos : List (String × VideoRecord)
deriving DecidableEq

/-- The `users/{encodedUsername}` node created implicitly when `POST /videos`
writes below a username that has no data yet. -/
def UserEntry.emptyEntry : UserEntry :=
  { username := none, password := none, createdAt := none, updatedAt := none,
    videos := [] }

/-- A Firebase snapshot `exists()` iff the node holds any data. -/
def UserEntry.hasData (e : UserEntry) : Bool :=
  e.username.isSome || e.password.isSome || e.createdAt.isSome ||
    e.updatedAt.isSome || !e.videos.isEmpty

/-- The database tree, restricted to the two top-level nodes the handlers
touch: `users/{encodedUsername}` and the global `videos/{videoId}` tree read
by `GET /videos/:videoId`. -/
structure DB where
  users : List (String × UserEntry)
  videos : List (String × VideoRecord)
deriving DecidableEq

/-- Firebase `ref.set` at a key: replace the subtree at that key, creating it if
absent (Firebase last-write-wins whole-value set). -/
def setAssoc {β : Type} (k : String) (v : β) : List (String × β) → List (String × β)
  | [] => [(k, v)]
  | (k', v') :: rest => if k = k' then (k, v) :: rest else (k', v') :: setAssoc k v rest

/-- Firebase `snapshot.exists()` at `users/{enc}`. -/
def DB.userExists (db : DB) (enc : String) : Bool :=
  match db.users.lookup enc with
  | none => false
  | some e => e.hasData

/-- The read `db.ref('users/' + enc + '/videos/' + vid).once('value')`:
`none` models a snapshot that does not exist. -/
def storedVideo (db : DB) (enc vid : String) : Option VideoRecord :=
  (db.users.lookup enc).bind (fun e => e.videos.lookup vid)

/-! ## Title resolver (src/server.js lines 147-157) -/

/-- Outcome of the external axios oEmbed call: `failure` covers a timeout,
network error or non-2xx status (axios throws); `ok t` is a 2xx JSON
response whose `title` field is `t` (`none` when the field is missing). -/
inductive FetchOutcome where
  | failure
  | ok (title : Option String)
deriving DecidableEq

/-- Function `getYouTubeVideoTitle` from `src/server.js`: returns
`response.data.title || 'Untitled Video'` on success (so a missing or empty
title falls back), and `'Untitled Video'` from the catch block on any
failure. -/
def getYouTubeVideoTitle : FetchOutcome → String
  | .failure => "Untitled Video"
  | .ok none => "Untitled Video"
  | .ok (some t) => if t = "" then "Untitled Video" else t

/-! ## Handlers -/

/-- JS truthiness of an optional request string: absent or empty is falsy. -/
def falsyStr : Option String → Bool
  | none => true
  | some s => s == ""

/-- Body of `POST /videos` (fields may be absent from the JSON). -/
structure VideosRequest where
  youtubeUrl : Option String
  videoId : Option String
  hotcues : Option (List (String × Rat))
  username : Option String
deriving DecidableEq

inductive PostVideosResult where
  | missingFields (fields : List String)
  | missingUsername
  | success (videoId : String)
deriving DecidableEq

/-- The `POST /videos` handler (src/server.js lines 160-279).  `outcome` is
the result of the external title lookup, `now` the server timestamp that
Firebase substitutes for `ServerValue.TIMESTAMP`.  The `typeof hotcues`
check of the source cannot fail here because the model's request type only
admits object-valued `hotcues`; the Firebase write itself is modelled as
always succeeding. -/
def postVideos (outcome : FetchOutcome) (now : Nat) (db : DB)
    (req : VideosRequest) : PostVideosResult × DB :=
  if falsyStr req.youtubeUrl || falsyStr req.videoId then
    (.missingFields ((if falsyStr req.youtubeUrl then ["youtubeUrl"] else []) ++
      (if falsyStr req.videoId then ["videoId"] else [])), db)
  else if falsyStr req.username then
    (.missingUsername, db)
  else
    let youtubeUrl := req.youtubeUrl.getD ""
    let videoId := req.videoId.getD ""
    let username := req.username.getD ""
    let title := getYouTubeVideoTitle outcome
    let encodedUsername := encodeS username
    let existingVideo := storedVideo db encodedUsername videoId
    let createdAt : Nat :=
      match existingVideo with
      | none => now
      | some ev =>
        match ev.createdAt with
        | none => now
        | some t => if t = 0 then now else t
    let videoData : VideoRecord :=
      { youtubeUrl := youtubeUrl, videoId := videoId, title := title,
        username := some username, hotcues := req.hotcues.getD [],
        createdAt := some createdAt, updatedAt := some now }
    let entry := (db.users.lookup encodedUsername).getD UserEntry.emptyEntry
    let entry' := { entry with videos := setAssoc videoId videoData entry.videos }
    (.success videoId, { db with users := setAssoc encodedUsername entry' db.users })

inductive GetVideoResult where
  | notFound (videoId : String)
  | found (record : VideoRecord)
deriving DecidableEq

/-- The `GET /videos/:videoId` handler (src/server.js lines 338-367): reads
the global `videos/{videoId}` node and answers 404 when the snapshot does
not exist. -/
def getVideoById (db : DB) (videoId : String) : GetVideoResult :=
  match db.videos.lookup videoId with
  | none => .notFound videoId
  | some r => .found r

/-- Matching of the signup regex `^[a-zA-Z0-9_]{3,20}$`. -/
def validUsernameFormat (u : String) : Bool :=
  decide (3 ≤ u.length) && decide (u.length ≤ 20) && u.toList.all usernameChar

inductive SignupResult where
  | missingFields (fields : List String)
  | invalidUsernameFormat
  | invalidPassword
  | usernameExists
  | created (username : String)
deriving DecidableEq

/-- The `POST /signup` handler (src/server.js lines 485-569).  `hash` is the
external bcrypt hashing primitive; `now` the server timestamp.  The
`userRef.set(userData)` replaces the whole `users/{enc}` subtree, so the new
entry's `videos` child is empty. -/
def signup (hash : String → String) (now : Nat) (db : DB)
    (username password : Option String) : SignupResult × DB :=
  if falsyStr username || falsyStr password then
    (.missingFields ((if falsyStr username then ["username"] else []) ++
      (if falsyStr password then ["password"] else [])), db)
  else
    let u := username.getD ""
    let p := password.getD ""
    if !validUsernameFormat u then
      (.invalidUsernameFormat, db)
    else if p.length < 6 then
      (.invalidPassword, db)
    else
      let encodedUsername := encodeS u
      if db.userExists encodedUsername then
        (.usernameExists, db)
      else
        let userData : UserEntry :=
          { username := some u, password := some (hash p),
            createdAt := some now, updatedAt := some now, videos := [] }
        (.created u, { db with users := setAssoc encodedUsername userData db.users })

inductive LoginResult where
  | missingFields
  | userNotFound
  | invalidPassword
  | serverError
  | success (username : String)
deriving DecidableEq

/-- The `POST /login` handler (src/server.js lines 423-482).  `verify` is
the external `bcrypt.compare`; when the stored node has no `password` field
the source's `bcrypt.compare(password, undefined)` rejects and the catch
block answers 500, modelled by `serverError`. -/
def login (verify : String → String → Bool) (db : DB)
    (username password : Option String) : LoginResult :=
  if falsyStr username || falsyStr password then
    .missingFields
  else
    let u := username.getD ""
    let p := password.getD ""
    let encodedUsername := encodeS u
    if !db.userExists encodedUsername then
      .userNotFound
    else
      match (db.users.lookup encodedUsername).bind UserEntry.password with
      | none => .serverError
      | some h => if verify p h then .success u else .invalidPassword

/-- The `videoData` object that a successful `POST /videos` writes, as a
function of the title-lookup outcome, the server time, the prior store
content at the key and the request fields. -/
def newVideoData (o : FetchOutcome) (now : Nat) (db : DB)
    (enc vid url user : String) (hot : Option (List (String × Rat))) :
    VideoRecord :=
  { youtubeUrl := url, videoId := vid, title := getYouTubeVideoTitle o,
    username := some user, hotcues := hot.getD [],
    createdAt := some
      (match (storedVideo db enc vid).bind VideoRecord.createdAt with
       | none => now
       | some t => if t = 0 then now else t),
    updatedAt := some now }

/-- The whole database after a successful `POST /videos`: the write touches
only `users/{enc}/videos/{vid}`. -/
def dbAfterPost (o : FetchOutcome) (now : Nat) (db : DB)
    (enc vid url user : String) (hot : Option (List (String × Rat))) : DB :=
  let entry := (db.users.lookup enc).getD UserEntry.emptyEntry
  let entry' := { entry with
    videos := setAssoc vid (newVideoData o now db enc vid url user hot)
      entry.videos }
  { db with users := setAssoc enc entry' db.users }


/-! ### Codec lemmas -/

theorem replAux_zero_of_not_occurs (pat rep : List Char) :
    ∀ l : List Char, occursIn pat l = false → replAux pat rep 0 l = l := by
  intro l
  induction l with
  | nil => intro _; rfl
  | cons c cs ih =>
    intro h
    simp only [occursIn, Bool.or_eq_false_iff] at h
    simp only [replAux, h.1, Bool.false_and, if_neg Bool.false_ne_true]
    exact congrArg (c :: ·) (ih h.2)

theorem replaceAll_of_not_occurs (pat rep l : List Char)
    (h : occursIn pat l = false) : replaceAll pat rep l = l :=
  replAux_zero_of_not_occurs pat rep l h

theorem occursIn_singleton_false (a : Char) :
    ∀ l : List Char, a ∉ l → occursIn [a] l = false := by
  intro l
  induction l with
  | nil => intro _; rfl
  | cons c cs ih =>
    intro h
    have hne : a ≠ c := fun he => h (he ▸ List.mem_cons_self a cs)
    have hmem : a ∉ cs := fun hm => h (List.mem_cons_of_mem c hm)
    simp only [occursIn, List.isPrefixOf, Bool.or_eq_false_iff]
    constructor
    · simp [beq_eq_false_iff_ne, hne]
    · exact ih hmem

theorem charset_not_mem (u : List Char) (hc : ∀ c ∈ u, usernameChar c = true)
    (a : Char) (ha : usernameChar a = false) : a ∉ u := by
  intro hm
  have := hc a hm
  simp [this] at ha

theorem encode_id_of_charset (u : List Char)
    (hc : ∀ c ∈ u, usernameChar c = true) :
    encodeUsernameForFirebase u = u := by
  by_cases hu : u = []
  · simp [encodeUsernameForFirebase, hu]
  · have hdot : occursIn ".".toList u = false :=
      occursIn_singleton_false '.' u (charset_not_mem u hc '.' (by decide))
    have hat : occursIn "@".toList u = false :=
      occursIn_singleton_false '@' u (charset_not_mem u hc '@' (by decide))
    have hhash : occursIn "#".toList u = false :=
      occursIn_singleton_false '#' u (charset_not_mem u hc '#' (by decide))
    have hdollar : occursIn "$".toList u = false :=
      occursIn_singleton_false '$' u (charset_not_mem u hc '$' (by decide))
    have hlb : occursIn "[".toList u = false :=
      occursIn_singleton_false '[' u (charset_not_mem u hc '[' (by decide))
    have hrb : occursIn "]".toList u = false :=
      occursIn_singleton_false ']' u (charset_not_mem u hc ']' (by decide))
    rw [encodeUsernameForFirebase, if_neg hu]
    rw [replaceAll_of_not_occurs _ _ _ hdot, replaceAll_of_not_occurs _ _ _ hat,
      replaceAll_of_not_occurs _ _ _ hhash, replaceAll_of_not_occurs _ _ _ hdollar,
      replaceAll_of_not_occurs _ _ _ hlb, replaceAll_of_not_occurs _ _ _ hrb]

theorem decode_id_of_no_markers (u : List Char)
    (h1 : occursIn "_DOT_".toList u = false)
    (h2 : occursIn "_AT_".toList u = false)
    (h3 : occursIn "_HASH_".toList u = false)
    (h4 : occursIn "_DOLLAR_".toList u = false)
    (h5 : occursIn "_LBRACKET_".toList u = false)
    (h6 : occursIn "_RBRACKET_".toList u = false) :
    decodeUsernameFromFirebase u = u := by
  by_cases hu : u = []
  · simp [decodeUsernameFromFirebase, hu]
  · rw [decodeUsernameFromFirebase, if_neg hu]
    rw [replaceAll_of_not_occurs _ _ _ h1, replaceAll_of_not_occurs _ _ _ h2,
      replaceAll_of_not_occurs _ _ _ h3, replaceAll_of_not_occurs _ _ _ h4,
      replaceAll_of_not_occurs _ _ _ h5, replaceAll_of_not_occurs _ _ _ h6]

/-! ### Claim C2 -/

/-- Claim C2, counterexample: the username `aa_DOT_bb` matches the accepted
signup charset `[A-Za-z0-9_]{3,20}`, yet the decode of its encode is
`aa.bb`, not `aa_DOT_bb` — the codec is not an inverse on the full accepted
charset. -/
theorem roundtrip_fails_on_marker_username :
    (∀ c ∈ "aa_DOT_bb".toList, usernameChar c = true) ∧
    3 ≤ "aa_DOT_bb".toList.length ∧ "aa_DOT_bb".toList.length ≤ 20 ∧
    decodeUsernameFromFirebase (encodeUsernameForFirebase "aa_DOT_bb".toList)
      = "aa.bb".toList ∧
    decodeUsernameFromFirebase (encodeUsernameForFirebase "aa_DOT_bb".toList)
      ≠ "aa_DOT_bb".toList := by
  refine ⟨by decide, by decide, by decide, by decide, by decide⟩

/-- Claim C2 (amended): for every username over the signup-accepted charset
`[A-Za-z0-9_]` that contains none of the six literal marker substrings,
`decodeUsernameFromFirebase (encodeUsernameForFirebase u) = u`. -/
theorem roundtrip_markerFree (u : List Char)
    (hc : ∀ c ∈ u, usernameChar c = true)
    (h1 : occursIn "_DOT_".toList u = false)
    (h2 : occursIn "_AT_".toList u = false)
    (h3 : occursIn "_HASH_".toList u = false)
    (h4 : occursIn "_DOLLAR_".toList u = false)
    (h5 : occursIn "_LBRACKET_".toList u = false)
    (h6 : occursIn "_RBRACKET_".toList u = false) :
    decodeUsernameFromFirebase (encodeUsernameForFirebase u) = u := by
  rw [encode_id_of_charset u hc]
  exact decode_id_of_no_markers u h1 h2 h3 h4 h5 h6

/-- Witness for C2's amended theorem at the concrete username `abc_123`. -/
theorem roundtrip_markerFree_witness :
    decodeUsernameFromFirebase (encodeUsernameForFirebase "abc_123".toList)
      = "abc_123".toList :=
  roundtrip_markerFree "abc_123".toList (by decide) (by decide) (by decide)
    (by decide) (by decide) (by decide) (by decide)

/-! ### Store lemmas -/

theorem lookup_setAssoc_self {β : Type} (k : String) (v : β) :
    ∀ l : List (String × β), (setAssoc k v l).lookup k = some v := by
  intro l
  induction l with
  | nil => simp [setAssoc, List.lookup]
  | cons p rest ih =>
    obtain ⟨k', v'⟩ := p
    by_cases h : k = k'
    · simp [setAssoc, h, List.lookup]
    · simp [setAssoc, if_neg h, List.lookup, beq_eq_false_iff_ne.mpr h, ih]

theorem lookup_setAssoc_ne {β : Type} (k k' : String) (h : k' ≠ k) :
    ∀ (v : β) (l : List (String × β)),
      (setAssoc k v l).lookup k' = l.lookup k' := by
  intro v l
  induction l with
  | nil => simp [setAssoc, List.lookup, beq_eq_false_iff_ne.mpr h]
  | cons p rest ih =>
    obtain ⟨k'', v''⟩ := p
    by_cases hk : k = k''
    · subst hk
      simp [setAssoc, List.lookup, beq_eq_false_iff_ne.mpr h]
    · simp only [setAssoc, if_neg hk, List.lookup, ih]

/-- Core shape of a successful `POST /videos` upsert: the stored value at
`users/{enc}/videos/{vid}` after the write is exactly the freshly built
`videoData`, whose `createdAt` is the only field that depends on the prior
record (carried forward when truthy, assigned `now` otherwise). -/
theorem postVideos_stored (o : FetchOutcome) (now : Nat) (db : DB)
    (req : VideosRequest) (url vid user : String)
    (hu : req.youtubeUrl = some url) (hv : req.videoId = some vid)
    (hw : req.username = some user)
    (hu' : url ≠ "") (hv' : vid ≠ "") (hw' : user ≠ "") :
    storedVideo (postVideos o now db req).2 (encodeS user) vid =
      some { youtubeUrl := url, videoId := vid,
             title := getYouTubeVideoTitle o, username := some user,
             hotcues := req.hotcues.getD [],
             createdAt := some
               (match (storedVideo db (encodeS user) vid).bind VideoRecord.createdAt with
                | none => now
                | some t => if t = 0 then now else t),
             updatedAt := some now } := by
  have h1 : falsyStr (some url) = false := by simp [falsyStr, hu']
  have h2 : falsyStr (some vid) = false := by simp [falsyStr, hv']
  have h3 : falsyStr (some user) = false := by simp [falsyStr, hw']
  cases hsv : storedVideo db (encodeS user) vid with
  | none =>
    simp only [storedVideo] at hsv
    simp [postVideos, h1, h2, h3, hu, hv, hw, hsv, storedVideo,
      lookup_setAssoc_self]
  | some ev =>
    simp only [storedVideo] at hsv
    cases hca : ev.createdAt with
    | none =>
      simp [postVideos, h1, h2, h3, hu, hv, hw, hsv, hca, storedVideo,
        lookup_setAssoc_self]
    | some t =>
      simp [postVideos, h1, h2, h3, hu, hv, hw, hsv, hca, storedVideo,
        lookup_setAssoc_self]

/-- Full shape of the database after a successful `POST /videos`: only the
`users/{enc}` entry changes, and within it only the `videos/{vid}` child. -/
theorem postVideos_db_valid (o : FetchOutcome) (now : Nat) (db : DB)
    (req : VideosRequest) (url vid user : String)
    (hu : req.youtubeUrl = some url) (hv : req.videoId = some vid)
    (hw : req.username = some user)
    (hu' : url ≠ "") (hv' : vid ≠ "") (hw' : user ≠ "") :
    (postVideos o now db req).2 =
      dbAfterPost o now db (encodeS user) vid url user req.hotcues := by
  have h1 : falsyStr (some url) = false := by simp [falsyStr, hu']
  have h2 : falsyStr (some vid) = false := by simp [falsyStr, hv']
  have h3 : falsyStr (some user) = false := by simp [falsyStr, hw']
  cases hsv : storedVideo db (encodeS user) vid with
  | none =>
    simp only [storedVideo] at hsv
    simp [postVideos, dbAfterPost, newVideoData, h1, h2, h3, hu, hv, hw, hsv,
      storedVideo]
  | some ev =>
    simp only [storedVideo] at hsv
    cases hca : ev.createdAt with
    | none =>
      simp [postVideos, dbAfterPost, newVideoData, h1, h2, h3, hu, hv, hw,
        hsv, hca, storedVideo]
    | some t =>
      simp [postVideos, dbAfterPost, newVideoData, h1, h2, h3, hu, hv, hw,
        hsv, hca, storedVideo]

/-- Any `POST /videos` call — to any key, valid or not — leaves a non-zero
`createdAt` already stored at `users/{enc}/videos/{vid}` in place. -/
theorem postVideos_preserves_createdAt (o : FetchOutcome) (now : Nat)
    (db : DB) (req : VideosRequest) (enc vid : String) (t : Nat) (ht : t ≠ 0)
    (hprev : (storedVideo db enc vid).bind VideoRecord.createdAt = some t) :
    (storedVideo (postVideos o now db req).2 enc vid).bind
      VideoRecord.createdAt = some t := by
  by_cases g1 : (falsyStr req.youtubeUrl || falsyStr req.videoId) = true
  · simpa [postVideos, g1] using hprev
  · by_cases g2 : falsyStr req.username = true
    · simpa [postVideos, g1, g2] using hprev
    · simp only [Bool.or_eq_true, not_or] at g1
      obtain ⟨user, hw, hw'⟩ : ∃ u, req.username = some u ∧ u ≠ "" := by
        cases hcu : req.username with
        | none => rw [hcu] at g2; simp [falsyStr] at g2
        | some u =>
          refine ⟨u, rfl, fun he => ?_⟩
          rw [hcu, he] at g2; simp [falsyStr] at g2
      obtain ⟨url, hu, hu'⟩ : ∃ s, req.youtubeUrl = some s ∧ s ≠ "" := by
        cases hcu : req.youtubeUrl with
        | none => rw [hcu] at g1; simp [falsyStr] at g1
        | some s =>
          refine ⟨s, rfl, fun he => ?_⟩
          rw [hcu, he] at g1; simp [falsyStr] at g1
      obtain ⟨vid', hv, hv'⟩ : ∃ s, req.videoId = some s ∧ s ≠ "" := by
        cases hcv : req.videoId with
        | none => rw [hcv] at g1; simp [falsyStr] at g1
        | some s =>
          refine ⟨s, rfl, fun he => ?_⟩
          rw [hcv, he] at g1; simp [falsyStr] at g1
      rw [postVideos_db_valid o now db req url vid' user hu hv hw hu' hv' hw']
      by_cases henc : enc = encodeS user
      · rw [henc] at hprev ⊢
        by_cases hvid : vid = vid'
        · rw [hvid] at hprev ⊢
          simp only [storedVideo] at hprev
          simp [dbAfterPost, newVideoData, storedVideo, lookup_setAssoc_self,
            hprev, ht]
        · cases hle : db.users.lookup (encodeS user) with
          | none => simp [storedVideo, hle] at hprev
          | some e =>
            simp only [storedVideo, hle] at hprev
            simp only [dbAfterPost, newVideoData, storedVideo, hle,
              Option.getD_some, Option.some_bind, lookup_setAssoc_self,
              lookup_setAssoc_ne vid' vid hvid]
            simpa using hprev
      · cases hle : db.users.lookup enc with
        | none => simp [storedVideo, hle] at hprev
        | some e =>
          simp only [storedVideo, hle] at hprev
          simp only [dbAfterPost, storedVideo,
            lookup_setAssoc_ne (encodeS user) enc henc, hle]
          simpa using hprev

/-! ### Claim C3 -/

/-- Claim C3, counterexample: a stored record whose `createdAt` field holds
the value `0` is falsy in the handler's `!existingVideo.createdAt` check, so
the upsert assigns a fresh timestamp (`5`) instead of carrying the stored
`createdAt` (`0`) forward — `createdAt` is not preserved for every record
that has a `createdAt` value. -/
theorem createdAt_zero_overwritten :
    (storedVideo
      ⟨[("alice", ⟨none, none, none, none,
        [("v1", ⟨"https://youtu.be/v1", "v1", "T", some "alice", [],
          some 0, some 0⟩)]⟩)], []⟩ (encodeS "alice") "v1").map
      VideoRecord.createdAt = some (some 0) ∧
    (storedVideo (postVideos .failure 5
      ⟨[("alice", ⟨none, none, none, none,
        [("v1", ⟨"https://youtu.be/v1", "v1", "T", some "alice", [],
          some 0, some 0⟩)]⟩)], []⟩
      ⟨some "https://youtu.be/v1", some "v1", none, some "alice"⟩).2
      (encodeS "alice") "v1").map VideoRecord.createdAt = some (some 5) ∧
    (some (some 5) : Option (Option Nat)) ≠ some (some 0) := by
  refine ⟨rfl, rfl, by decide⟩

/-- Claim C3 (amended): a stored non-zero `createdAt` is carried forward
unchanged by a `POST /videos` upsert to that key (which refreshes
`updatedAt` to the current server time), and it survives any sequence of
`POST /videos` calls. -/
theorem createdAt_nonzero_preserved (enc vid : String) (t : Nat)
    (ht : t ≠ 0) :
    (∀ (o : FetchOutcome) (now : Nat) (db : DB) (req : VideosRequest)
      (url user : String),
      req.youtubeUrl = some url → req.videoId = some vid →
      req.username = some user → url ≠ "" → vid ≠ "" → user ≠ "" →
      encodeS user = enc →
      (storedVideo db enc vid).bind VideoRecord.createdAt = some t →
      (storedVideo (postVideos o now db req).2 enc vid).map
        (fun r => (r.createdAt, r.updatedAt)) = some (some t, some now)) ∧
    (∀ (steps : List (FetchOutcome × Nat × VideosRequest)) (db : DB),
      (storedVideo db enc vid).bind VideoRecord.createdAt = some t →
      (storedVideo (steps.foldl
        (fun d s => (postVideos s.1 s.2.1 d s.2.2).2) db) enc vid).bind
        VideoRecord.createdAt = some t) := by
  constructor
  · intro o now db req url user hu hv hw hu' hv' hw' henc hprev
    subst henc
    rw [postVideos_stored o now db req url vid user hu hv hw hu' hv' hw']
    simp [hprev, ht]
  · intro steps
    induction steps with
    | nil => intro db hprev; exact hprev
    | cons s rest ih =>
      intro db hprev
      exact ih _ (postVideos_preserves_createdAt s.1 s.2.1 db s.2.2 enc vid t
        ht hprev)

/-- Witness for C3's amended theorem: a record created at time `7` keeps
`createdAt = 7` across a single re-upsert at time `9` (with `updatedAt`
advanced to `9`) and across a two-step upsert sequence. -/
theorem createdAt_nonzero_preserved_witness :
    ((storedVideo (postVideos .failure 9
      ⟨[("alice", ⟨none, none, none, none,
        [("v1", ⟨"https://youtu.be/v1", "v1", "T", some "alice", [],
          some 7, some 7⟩)]⟩)], []⟩
      ⟨some "https://youtu.be/v2", some "v1", none, some "alice"⟩).2
      (encodeS "alice") "v1").map
      (fun r => (r.createdAt, r.updatedAt)) = some (some 7, some 9)) ∧
    ((storedVideo ([(.failure, 9,
        ⟨some "https://youtu.be/v2", some "v1", none, some "alice"⟩),
        (.ok (some "T2"), 11,
        ⟨some "https://youtu.be/v3", some "v1", none, some "alice"⟩)].foldl
        (fun d s => (postVideos s.1 s.2.1 d s.2.2).2)
      ⟨[("alice", ⟨none, none, none, none,
        [("v1", ⟨"https://youtu.be/v1", "v1", "T", some "alice", [],
          some 7, some 7⟩)]⟩)], []⟩) (encodeS "alice") "v1").bind
      VideoRecord.createdAt = some 7) :=
  ⟨(createdAt_nonzero_preserved (encodeS "alice") "v1" 7 (by decide)).1
      .failure 9
      ⟨[("alice", ⟨none, none, none, none,
        [("v1", ⟨"https://youtu.be/v1", "v1", "T", some "alice", [],
          some 7, some 7⟩)]⟩)], []⟩
      ⟨some "https://youtu.be/v2", some "v1", none, some "alice"⟩
      "https://youtu.be/v2" "alice" rfl rfl rfl (by decide) (by decide)
      (by decide) rfl rfl,
   (createdAt_nonzero_preserved (encodeS "alice") "v1" 7 (by decide)).2
      [(.failure, 9,
        ⟨some "https://youtu.be/v2", some "v1", none, some "alice"⟩),
       (.ok (some "T2"), 11,
        ⟨some "https://youtu.be/v3", some "v1", none, some "alice"⟩)]
      ⟨[("alice", ⟨none, none, none, none,
        [("v1", ⟨"https://youtu.be/v1", "v1", "T", some "alice", [],
          some 7, some 7⟩)]⟩)], []⟩ rfl⟩

/-! ### Claim C1 -/

/-- Claim C1 is violated by the code: starting from an empty store, a
successful `POST /videos` with body `{videoId:"abc123",
youtubeUrl:"https://youtube.com/watch?v=abc123", hotcues:{q:12.5},
username:"alice"}` writes `users/alice/videos/abc123`, but
`GET /videos/abc123` reads the global `videos/abc123` node — which nothing
in the backend ever writes — and so answers 404, not 200. -/
theorem post_then_getById_notFound :
    (postVideos (.ok (some "A Song")) 100 ⟨[], []⟩
      ⟨some "https://youtube.com/watch?v=abc123", some "abc123",
        some [("q", (12.5 : Rat))], some "alice"⟩).1 = .success "abc123" ∧
    getVideoById (postVideos (.ok (some "A Song")) 100 ⟨[], []⟩
      ⟨some "https://youtube.com/watch?v=abc123", some "abc123",
        some [("q", (12.5 : Rat))], some "alice"⟩).2 "abc123"
      = .notFound "abc123" :=
  ⟨rfl, rfl⟩

/-! ### Claim C4 -/

/-- Claim C4: when a `POST /videos` upsert finds no record at the key, or a
record lacking `createdAt`, the written record has `createdAt = now` and
`updatedAt = now`, so `createdAt = updatedAt` on such a first save. -/
theorem first_save_createdAt_eq_updatedAt (o : FetchOutcome) (now : Nat)
    (db : DB) (req : VideosRequest) (url vid user : String)
    (hu : req.youtubeUrl = some url) (hv : req.videoId = some vid)
    (hw : req.username = some user)
    (hu' : url ≠ "") (hv' : vid ≠ "") (hw' : user ≠ "")
    (hfresh : storedVideo db (encodeS user) vid = none ∨
      ∃ r, storedVideo db (encodeS user) vid = some r ∧ r.createdAt = none) :
    (storedVideo (postVideos o now db req).2 (encodeS user) vid).map
      (fun r => (r.createdAt, r.updatedAt)) = some (some now, some now) := by
  have hbind : (storedVideo db (encodeS user) vid).bind VideoRecord.createdAt
      = none := by
    rcases hfresh with h | ⟨r, hr, hc⟩
    · simp [h]
    · simp [hr, hc]
  rw [postVideos_stored o now db req url vid user hu hv hw hu' hv' hw']
  simp [hbind]

/-- Witness for C4 at a concrete first save into an empty store. -/
theorem first_save_createdAt_eq_updatedAt_witness :
    (storedVideo (postVideos .failure 42 ⟨[], []⟩
        ⟨some "https://youtu.be/v1", some "v1", none, some "alice"⟩).2
        (encodeS "alice") "v1").map (fun r => (r.createdAt, r.updatedAt))
      = some (some 42, some 42) :=
  first_save_createdAt_eq_updatedAt .failure 42 ⟨[], []⟩
    ⟨some "https://youtu.be/v1", some "v1", none, some "alice"⟩
    "https://youtu.be/v1" "v1" "alice" rfl rfl rfl (by decide) (by decide)
    (by decide) (Or.inl rfl)

/-! ### Claim C5 -/

/-- Claim C5: every successful `POST /videos` upsert is a whole-value
replace.  The stored value after the write carries exactly the incoming
fields (`youtubeUrl`, `videoId`, resolved `title`, `username`, the incoming
`hotcues` or `{}`, fresh `updatedAt`), and the written value depends on the
prior record only through its `createdAt` field — two stores whose prior
records agree on `createdAt` receive identical written records, so prior
nested hotcue maps never survive unless resent. -/
theorem upsert_whole_value_replace (o : FetchOutcome) (now : Nat)
    (db : DB) (req : VideosRequest) (url vid user : String)
    (hu : req.youtubeUrl = some url) (hv : req.videoId = some vid)
    (hw : req.username = some user)
    (hu' : url ≠ "") (hv' : vid ≠ "") (hw' : user ≠ "") :
    ((storedVideo (postVideos o now db req).2 (encodeS user) vid).map
      (fun r => (r.youtubeUrl, r.videoId, r.title, r.username, r.hotcues,
        r.updatedAt))
      = some (url, vid, getYouTubeVideoTitle o, some user,
        req.hotcues.getD [], some now)) ∧
    (∀ db₂ : DB,
      (storedVideo db₂ (encodeS user) vid).bind VideoRecord.createdAt =
        (storedVideo db (encodeS user) vid).bind VideoRecord.createdAt →
      storedVideo (postVideos o now db₂ req).2 (encodeS user) vid =
        storedVideo (postVideos o now db req).2 (encodeS user) vid) := by
  constructor
  · rw [postVideos_stored o now db req url vid user hu hv hw hu' hv' hw']
    simp
  · intro db₂ heq
    rw [postVideos_stored o now db₂ req url vid user hu hv hw hu' hv' hw',
      postVideos_stored o now db req url vid user hu hv hw hu' hv' hw', heq]

/-- Witness for C5: a store holding a prior record for `alice/v1` with a
hotcue map `{z: 9}` and no `createdAt` receives, after the same `POST`, the
same written record as the empty store — the prior hotcues do not survive. -/
theorem upsert_whole_value_replace_witness :
    storedVideo (postVideos .failure 42
        ⟨[("alice", ⟨none, none, none, none,
          [("v1", ⟨"old", "v1", "Old", some "alice", [("z", (9 : Rat))],
            none, some 3⟩)]⟩)], []⟩
        ⟨some "https://youtu.be/v1", some "v1", some [("q", (12.5 : Rat))],
          some "alice"⟩).2 (encodeS "alice") "v1" =
    storedVideo (postVideos .failure 42 ⟨[], []⟩
        ⟨some "https://youtu.be/v1", some "v1", some [("q", (12.5 : Rat))],
          some "alice"⟩).2 (encodeS "alice") "v1" :=
  (upsert_whole_value_replace .failure 42 ⟨[], []⟩
    ⟨some "https://youtu.be/v1", some "v1", some [("q", (12.5 : Rat))],
      some "alice"⟩
    "https://youtu.be/v1" "v1" "alice" rfl rfl rfl (by decide) (by decide)
    (by decide)).2
    ⟨[("alice", ⟨none, none, none, none,
      [("v1", ⟨"old", "v1", "Old", some "alice", [("z", (9 : Rat))],
        none, some 3⟩)]⟩)], []⟩ (by decide)

/-! ### Claim C6 -/

/-- Claim C6: `POST /signup` accepts a username iff it matches
`^[a-zA-Z0-9_]{3,20}$` and a password iff its length is at least 6 (an
accepted request either creates the user or hits the duplicate check);
every validation rejection leaves the store untouched; concretely it
rejects username `ab`, accepts `abc_123`, rejects password `12345` and
accepts `123456`. -/
theorem signup_validation_iff (hash : String → String) (now : Nat) (db : DB)
    (u p : String) :
    (((signup hash now db (some u) (some p)).1 = .created u ∨
      (signup hash now db (some u) (some p)).1 = .usernameExists) ↔
      (validUsernameFormat u = true ∧ 6 ≤ p.length)) ∧
    (¬(validUsernameFormat u = true ∧ 6 ≤ p.length) →
      (signup hash now db (some u) (some p)).2 = db) ∧
    (signup hash now db (some "ab") (some "123456")).1
      = .invalidUsernameFormat ∧
    (signup hash now db (some "abc_123") (some "12345")).1
      = .invalidPassword ∧
    (signup hash now ⟨[], []⟩ (some "abc_123") (some "123456")).1
      = .created "abc_123" := by
  refine ⟨?_, ?_, rfl, rfl, rfl⟩
  · by_cases hpu : u = ""
    · subst hpu
      simp [signup, falsyStr, show validUsernameFormat "" = false by decide]
    · by_cases hpp : p = ""
      · subst hpp
        simp [signup, falsyStr, show ("" : String).length = 0 from rfl]
      · have hfa : falsyStr (some u) = false := by simp [falsyStr, hpu]
        have hfp : falsyStr (some p) = false := by simp [falsyStr, hpp]
        by_cases hf : validUsernameFormat u = true
        · by_cases h6 : 6 ≤ p.length
          · by_cases he : db.userExists (encodeS u) = true
            · simp [signup, hfa, hfp, hf, h6, he, show ¬p.length < 6 by omega]
            · simp [signup, hfa, hfp, hf, h6,
                show db.userExists (encodeS u) = false by
                  revert he; cases db.userExists (encodeS u) <;> simp,
                show ¬p.length < 6 by omega]
          · simp [signup, hfa, hfp, hf, h6, show p.length < 6 by omega]
        · have hf' : validUsernameFormat u = false := by
            revert hf; cases validUsernameFormat u <;> simp
          simp [signup, hfa, hfp, hf']
  · intro hnot
    by_cases hpu : u = ""
    · subst hpu; simp [signup, falsyStr]
    · by_cases hpp : p = ""
      · subst hpp; simp [signup, falsyStr, hpu]
      · have hfa : falsyStr (some u) = false := by simp [falsyStr, hpu]
        have hfp : falsyStr (some p) = false := by simp [falsyStr, hpp]
        by_cases hf : validUsernameFormat u = true
        · have h6 : ¬6 ≤ p.length := fun h => hnot ⟨hf, h⟩
          simp [signup, hfa, hfp, hf, show p.length < 6 by omega]
        · have hf' : validUsernameFormat u = false := by
            revert hf; cases validUsernameFormat u <;> simp
          simp [signup, hfa, hfp, hf']

/-- Witness for C6's universally quantified parts at a concrete rejected
signup (`ab` is too short, so the store is unchanged). -/
theorem signup_validation_iff_witness :
    (¬(validUsernameFormat "ab" = true ∧ 6 ≤ ("123456" : String).length)) ∧
    (signup (fun s => s) 1 ⟨[], []⟩ (some "ab") (some "123456")).2
      = ⟨[], []⟩ :=
  ⟨by decide,
   (signup_validation_iff (fun s => s) 1 ⟨[], []⟩ "ab" "123456").2.1
     (by decide)⟩

/-! ### Claim C7 -/

/-- Claim C7: after a successful `POST /signup` for a username, a second
`POST /signup` with the same username (and password) answers 409
`USERNAME_EXISTS` and performs no store write. -/
theorem signup_duplicate_conflict (hash : String → String)
    (now₁ now₂ : Nat) (db : DB) (u p : String)
    (hfirst : (signup hash now₁ db (some u) (some p)).1 = .created u) :
    (signup hash now₂ (signup hash now₁ db (some u) (some p)).2
      (some u) (some p)).1 = .usernameExists ∧
    (signup hash now₂ (signup hash now₁ db (some u) (some p)).2
      (some u) (some p)).2 = (signup hash now₁ db (some u) (some p)).2 := by
  have hfa : falsyStr (some u) = false := by
    by_contra h
    rw [Bool.not_eq_false] at h
    simp [signup, h] at hfirst
  have hfp : falsyStr (some p) = false := by
    by_contra h
    rw [Bool.not_eq_false] at h
    simp [signup, h, hfa] at hfirst
  have hf : validUsernameFormat u = true := by
    by_contra h
    have h' : validUsernameFormat u = false := by
      revert h; cases validUsernameFormat u <;> simp
    simp [signup, hfa, hfp, h'] at hfirst
  have h6 : ¬p.length < 6 := by
    intro h
    simp [signup, hfa, hfp, hf, h] at hfirst
  have hne : db.userExists (encodeS u) = false := by
    by_contra h
    rw [Bool.not_eq_false] at h
    simp [signup, hfa, hfp, hf, h6, h] at hfirst
  have hdb1 : (signup hash now₁ db (some u) (some p)).2 =
      { db with users := (setAssoc (encodeS u)
        ⟨some u, some (hash p), some now₁, some now₁, []⟩ db.users) } := by
    simp [signup, hfa, hfp, hf, h6, hne]
  have hex : ({ db with users := (setAssoc (encodeS u)
      ⟨some u, some (hash p), some now₁, some now₁, []⟩ db.users) } : DB).userExists
      (encodeS u) = true := by
    simp [DB.userExists, lookup_setAssoc_self, UserEntry.hasData]
  rw [hdb1]
  constructor
  · simp [signup, hfa, hfp, hf, h6, hex]
  · simp [signup, hfa, hfp, hf, h6, hex]

/-- Witness for C7 at a concrete double signup of `alice`. -/
theorem signup_duplicate_conflict_witness :
    (signup (fun s => s) 2 (signup (fun s => s) 1 ⟨[], []⟩
      (some "alice") (some "secret1")).2 (some "alice") (some "secret1")).1
      = .usernameExists ∧
    (signup (fun s => s) 2 (signup (fun s => s) 1 ⟨[], []⟩
      (some "alice") (some "secret1")).2 (some "alice") (some "secret1")).2
      = (signup (fun s => s) 1 ⟨[], []⟩ (some "alice") (some "secret1")).2 :=
  signup_duplicate_conflict (fun s => s) 1 2 ⟨[], []⟩ "alice" "secret1" rfl

/-! ### Claim C8 -/

/-- Claim C8: `POST /login` answers 401 `USER_NOT_FOUND` when no data exists
at `users/{enc}`; when the stored node carries a password hash, it answers
401 `INVALID_PASSWORD` when bcrypt comparison fails and otherwise succeeds,
returning exactly the original (unencoded) username — the success payload
carries no token. -/
theorem login_outcomes (verify : String → String → Bool) (db : DB)
    (u p : String) (hu : u ≠ "") (hp : p ≠ "") :
    (db.userExists (encodeS u) = false →
      login verify db (some u) (some p) = .userNotFound) ∧
    (∀ (e : UserEntry) (h0 : String),
      db.users.lookup (encodeS u) = some e → e.password = some h0 →
      (verify p h0 = false →
        login verify db (some u) (some p) = .invalidPassword) ∧
      (verify p h0 = true →
        login verify db (some u) (some p) = .success u)) := by
  have hfa : falsyStr (some u) = false := by simp [falsyStr, hu]
  have hfp : falsyStr (some p) = false := by simp [falsyStr, hp]
  constructor
  · intro hne
    simp [login, hfa, hfp, hne]
  · intro e h0 hle hpw
    have hex : db.userExists (encodeS u) = true := by
      simp [DB.userExists, hle, UserEntry.hasData, hpw]
    constructor
    · intro hv
      simp [login, hfa, hfp, hex, hle, hpw, hv]
    · intro hv
      simp [login, hfa, hfp, hex, hle, hpw, hv]

/-- Witness for C8 covering the three outcomes against a concrete store
holding `alice` with stored hash `secret1` (bcrypt modelled as string
equality for the witness). -/
theorem login_outcomes_witness :
    login (fun a b => a == b)
      ⟨[("alice", ⟨some "alice", some "secret1", some 1, some 1, []⟩)], []⟩
      (some "bob") (some "secret1") = .userNotFound ∧
    login (fun a b => a == b)
      ⟨[("alice", ⟨some "alice", some "secret1", some 1, some 1, []⟩)], []⟩
      (some "alice") (some "wrong1") = .invalidPassword ∧
    login (fun a b => a == b)
      ⟨[("alice", ⟨some "alice", some "secret1", some 1, some 1, []⟩)], []⟩
      (some "alice") (some "secret1") = .success "alice" :=
  ⟨(login_outcomes (fun a b => a == b)
      ⟨[("alice", ⟨some "alice", some "secret1", some 1, some 1, []⟩)], []⟩
      "bob" "secret1" (by decide) (by decide)).1 rfl,
   ((login_outcomes (fun a b => a == b)
      ⟨[("alice", ⟨some "alice", some "secret1", some 1, some 1, []⟩)], []⟩
      "alice" "wrong1" (by decide) (by decide)).2
      ⟨some "alice", some "secret1", some 1, some 1, []⟩ "secret1"
      rfl rfl).1 rfl,
   ((login_outcomes (fun a b => a == b)
      ⟨[("alice", ⟨some "alice", some "secret1", some 1, some 1, []⟩)], []⟩
      "alice" "secret1" (by decide) (by decide)).2
      ⟨some "alice", some "secret1", some 1, some 1, []⟩ "secret1"
      rfl rfl).2 rfl⟩

/-! ### Claim C9 -/

/-- Claim C9: `getYouTubeVideoTitle` is a total function into `String` — it
returns the fixed fallback `Untitled Video` on a failed lookup and on a
2xx response whose title is missing or falsy — and a failed title lookup
never fails the overall `POST /videos` save: with a failing lookup the
handler still answers success for any valid request. -/
theorem title_fallback_total :
    getYouTubeVideoTitle .failure = "Untitled Video" ∧
    getYouTubeVideoTitle (.ok none) = "Untitled Video" ∧
    getYouTubeVideoTitle (.ok (some "")) = "Untitled Video" ∧
    (∀ (now : Nat) (db : DB) (req : VideosRequest) (url vid user : String),
      req.youtubeUrl = some url → req.videoId = some vid →
      req.username = some user → url ≠ "" → vid ≠ "" → user ≠ "" →
      (postVideos .failure now db req).1 = .success vid) := by
  refine ⟨rfl, rfl, rfl, ?_⟩
  intro now db req url vid user hu hv hw hu' hv' hw'
  have h1 : falsyStr (some url) = false := by simp [falsyStr, hu']
  have h2 : falsyStr (some vid) = false := by simp [falsyStr, hv']
  have h3 : falsyStr (some user) = false := by simp [falsyStr, hw']
  simp [postVideos, h1, h2, h3, hu, hv, hw]

/-- Witness for C9's quantified part: a concrete save with a failing title
lookup still succeeds. -/
theorem title_fallback_total_witness :
    (postVideos .failure 5 ⟨[], []⟩
      ⟨some "https://youtu.be/v1", some "v1", none, some "alice"⟩).1
      = .success "v1" :=
  title_fallback_total.2.2.2 5 ⟨[], []⟩
    ⟨some "https://youtu.be/v1", some "v1", none, some "alice"⟩
    "https://youtu.be/v1" "v1" "alice" rfl rfl rfl (by decide) (by decide)
    (by decide)

/-! ### Claim C10 -/

/-- Claim C10: signup's duplicate check tests existence of the whole
`users/{enc}` subtree, which `POST /videos` also populates.  For a username
with no user record at all, once a video is saved under it, a subsequent
valid `POST /signup` answers 409 `USERNAME_EXISTS` and writes nothing, even
though the entry still carries no password (no user record was ever
created). -/
theorem video_save_blocks_signup (hash : String → String) (o : FetchOutcome)
    (nowV nowS : Nat) (db : DB) (u p url vid : String)
    (hnou : db.users.lookup (encodeS u) = none)
    (hfu : validUsernameFormat u = true) (hp6 : 6 ≤ p.length)
    (hurl : url ≠ "") (hvid : vid ≠ "") :
    (signup hash nowS
      (postVideos o nowV db ⟨some url, some vid, none, some u⟩).2
      (some u) (some p)).1 = .usernameExists ∧
    ((postVideos o nowV db ⟨some url, some vid, none, some u⟩).2.users.lookup
      (encodeS u)).map UserEntry.password = some none ∧
    (signup hash nowS
      (postVideos o nowV db ⟨some url, some vid, none, some u⟩).2
      (some u) (some p)).2
      = (postVideos o nowV db ⟨some url, some vid, none, some u⟩).2 := by
  have hu : u ≠ "" := by
    intro he
    rw [he] at hfu
    exact absurd hfu (by decide)
  have hp : p ≠ "" := by
    intro he
    rw [he] at hp6
    exact absurd hp6 (by decide)
  rw [postVideos_db_valid o nowV db _ url vid u rfl rfl rfl hurl hvid hu]
  have hlook : ((dbAfterPost o nowV db (encodeS u) vid url u none).users.lookup
      (encodeS u)) = some ⟨none, none, none, none,
        [(vid, newVideoData o nowV db (encodeS u) vid url u none)]⟩ := by
    simp [dbAfterPost, hnou, lookup_setAssoc_self, UserEntry.emptyEntry,
      setAssoc]
  have hex : (dbAfterPost o nowV db (encodeS u) vid url u none).userExists
      (encodeS u) = true := by
    simp [DB.userExists, hlook, UserEntry.hasData]
  have hfa : falsyStr (some u) = false := by simp [falsyStr, hu]
  have hfp : falsyStr (some p) = false := by simp [falsyStr, hp]
  have h6 : ¬p.length < 6 := by omega
  refine ⟨?_, ?_, ?_⟩
  · simp [signup, hfa, hfp, hfu, h6, hex]
  · simp [hlook]
  · simp [signup, hfa, hfp, hfu, h6, hex]

/-- Witness for C10: saving a video for `alice` (who has no account) into an
empty store makes a later valid signup for `alice` answer 409 even though
the stored entry has no password. -/
theorem video_save_blocks_signup_witness :
    (signup (fun s => s) 4
      (postVideos .failure 3 ⟨[], []⟩
        ⟨some "https://youtu.be/v1", some "v1", none, some "alice"⟩).2
      (some "alice") (some "secret1")).1 = .usernameExists ∧
    ((postVideos .failure 3 ⟨[], []⟩
        ⟨some "https://youtu.be/v1", some "v1", none,
          some "alice"⟩).2.users.lookup
      (encodeS "alice")).map UserEntry.password = some none ∧
    (signup (fun s => s) 4
      (postVideos .failure 3 ⟨[], []⟩
        ⟨some "https://youtu.be/v1", some "v1", none, some "alice"⟩).2
      (some "alice") (some "secret1")).2
      = (postVideos .failure 3 ⟨[], []⟩
        ⟨some "https://youtu.be/v1", some "v1", none, some "alice"⟩).2 :=
  video_save_blocks_signup (fun s => s) .failure 3 4 ⟨[], []⟩ "alice"
    "secret1" "https://youtu.be/v1" "v1" rfl (by decide) (by decide)
    (by decide) (by decide)

end ViperVJ
